import Mathlib

/-!
A verification development for the `readFromWrite.py` Read-node generator
(`src/scripts/readFromWrite.py`).  Paths and knob values are modelled as
`List Char`; the ambient host session (filesystem snapshot, project
directory, the answer the user gives to the confirmation dialog) is an
explicit `Env` record.  Python exceptions (IndexError from `[-1]` on an
empty findall result, TypeError from `int(None)`, ...) are modelled with
`Except PyErr`.  The script ran under Python 2, so comparing a `str`
against an `int` (line 173, `lastframe < 0` on a glob-derived string)
is `False` rather than an error; `pyLtZero` reflects that.
-/

deriving instance DecidableEq for Except

/-- Shorthand turning a Lean string literal into the `List Char` used
throughout the model. -/
def pstr (s : String) : List Char := s.data

/-- Python exception kinds the script can raise. -/
inductive PyErr
  | indexError
  | typeError
  | valueError
  | keyError
  | attributeError
  deriving DecidableEq, Repr

/-- A Python knob value: the script only ever stores numbers (floats are
modelled by their `int()` truncation) and strings. -/
inductive PyVal
  | int (i : Int)
  | str (s : List Char)
  deriving DecidableEq, Repr

/-- A frame-range endpoint as the script produces it: an `int` on the
Read-metadata path, a digit *string* on the glob path (the source never
converts the globbed frame strings before returning them). -/
inductive FrameVal
  | int (i : Int)
  | str (s : List Char)
  deriving DecidableEq, Repr

/-- `isPre a b` = `b.startswith(a)`: `a` is a prefix of `b`. -/
def isPre : List Char → List Char → Bool
  | [], _ => true
  | _ :: _, [] => false
  | a :: as, b :: bs => a = b && isPre as bs

/-- Models `re.findall(r'\d+', s)[-1]` without the crash: the last
maximal run of digits in `s`, or `none` when `s` has no digit. -/
def lastDigitRun (s : List Char) : Option (List Char) :=
  let r := s.reverse.dropWhile (fun c => !c.isDigit)
  if r.isEmpty then none
  else some ((r.takeWhile (fun c => c.isDigit)).reverse)

/-- Models `s.split('.')[-1]`: the substring after the last `'.'`, or the
whole string when no `'.'` occurs. -/
def splitDotLast (s : List Char) : List Char :=
  (s.reverse.takeWhile (fun c => c ≠ '.')).reverse

/-- Models the Python slice `s[:i]` for an `int` index `i` (negative
indices count from the end, as `rfind` can return `-1`). -/
def takeTo (s : List Char) (i : Int) : List Char :=
  if 0 ≤ i then s.take i.toNat else s.take (s.length - (-i).toNat)

/-- Helper for `pyRfind`: the largest index `j ≤ n` at which `pat`
starts in `s`, scanning downwards. -/
def rfindGo (s pat : List Char) : Nat → Option Nat
  | 0 => if isPre pat s then some 0 else none
  | n + 1 => if isPre pat (s.drop (n + 1)) then some (n + 1) else rfindGo s pat n

/-- Models `s.rfind(pat)`: index of the last occurrence, `-1` if absent. -/
def pyRfind (s pat : List Char) : Int :=
  match rfindGo s pat s.length with
  | some i => (i : Int)
  | none => -1

/-- Engine of `pyReplace` for a nonempty pattern: replace every
(left-to-right, non-overlapping) occurrence of `pat` by `rep`.  The
fuel argument (instantiated with the string length, enough since every
step consumes at least one character when `pat ≠ []`) keeps the
recursion structural. -/
def pyReplaceFuel (pat rep : List Char) : Nat → List Char → List Char
  | 0, s => s
  | fuel + 1, s =>
    match s with
    | [] => []
    | c :: rest =>
      if pat ≠ [] ∧ isPre pat (c :: rest) = true then
        rep ++ pyReplaceFuel pat rep fuel ((c :: rest).drop pat.length)
      else
        c :: pyReplaceFuel pat rep fuel rest

/-- Models Python `s.replace(pat, rep)` (all occurrences; an empty
pattern interleaves `rep` around every character, as in Python). -/
def pyReplace (s pat rep : List Char) : List Char :=
  if pat = [] then rep ++ s.flatMap (fun c => c :: rep)
  else pyReplaceFuel pat rep s.length s

/-- `occursB pat s`: does `pat` occur as a contiguous substring of `s`?
(Used only in theorem statements about `pyReplace`.) -/
def occursB (pat : List Char) : List Char → Bool
  | [] => isPre pat []
  | s@(_ :: rest) => isPre pat s || occursB pat rest

/-- Models Python `s.split(sep)` (one-character separator), accumulator
form. -/
def splitSepGo (sep : Char) : List Char → List Char → List (List Char)
  | [], acc => [acc.reverse]
  | c :: rest, acc =>
    if c = sep then acc.reverse :: splitSepGo sep rest []
    else splitSepGo sep rest (c :: acc)

/-- Models Python `s.split(sep)` for a one-character separator. -/
def splitSep (sep : Char) (s : List Char) : List (List Char) :=
  splitSepGo sep s []

/-- The number of initial slashes `posixpath.normpath` preserves: `1`
for a path starting with `/` (or three and more slashes), `2` for
exactly two. -/
def initialSlashes (p : List Char) : Nat :=
  if isPre (pstr "/") p then
    if isPre (pstr "//") p ∧ ¬ isPre (pstr "///") p then 2 else 1
  else 0

/-- The component loop of `posixpath.normpath`: drop empty and `.`
components, resolve `..` against the stack. -/
def normComps (isl : Nat) : List (List Char) → List (List Char) → List (List Char)
  | [], stack => stack
  | comp :: rest, stack =>
    if comp = [] ∨ comp = pstr "." then normComps isl rest stack
    else if comp ≠ pstr ".." ∨ (isl = 0 ∧ stack = []) ∨
            (stack ≠ [] ∧ stack.getLastD [] = pstr "..") then
      normComps isl rest (stack ++ [comp])
    else if stack ≠ [] then normComps isl rest stack.dropLast
    else normComps isl rest stack

/-- Models `posixpath.normpath`. -/
def pyNormpath (p : List Char) : List Char :=
  if p = [] then pstr "."
  else
    let isl := initialSlashes p
    let stack := normComps isl (splitSep '/' p) []
    let path := List.replicate isl '/' ++ List.intercalate (pstr "/") stack
    if path = [] then pstr "." else path

/-- Models `posixpath.join` for two arguments. -/
def pyJoin (a b : List Char) : List Char :=
  if isPre (pstr "/") b then b
  else if a = [] ∨ a.getLastD ' ' = '/' then a ++ b
  else a ++ '/' :: b

/-- The ambient host session as the script observes it.

* `fs` is the snapshot of on-disk paths: `os.path.exists(p)` is modelled
  as membership of the literal path string, and `glob.glob(pattern)` as
  filtering `fs` with the pattern.
* `projectDir` models `self.project_dir()` (the root settings'
  `project_directory` value; the `getValue`/`evaluate` fallback of
  lines 100-105 is collapsed into the one value the host hands back,
  `none` when it yields no value).
* `cwd` is the working directory `os.path.abspath` resolves relative
  paths against.
* `ask` is the answer the user gives to the `nuke.ask` dialog. -/
structure Env where
  fs : List (List Char)
  projectDir : Option (List Char)
  cwd : List Char
  ask : Bool

/-- Models `os.path.abspath`. -/
def pyAbspath (env : Env) (p : List Char) : List Char :=
  if isPre (pstr "/") p then pyNormpath p
  else pyNormpath (pyJoin env.cwd p)

/-- `os.path.abspath(p)` followed by `.replace('\\', '/')`, the pair of
normalizations the script applies at lines 117-119 and 258-259. -/
def normalizedPath (env : Env) (p : List Char) : List Char :=
  pyReplace (pyAbspath env p) (pstr "\\") (pstr "/")

/-- Whether file `f` matches the glob pattern `basename + '*' + filetype`
(lines 124 and 165): `f` decomposes as `basename ++ mid ++ filetype`
where the wildcard part `mid` contains no path separator. -/
def globMatch (basename filetype f : List Char) : Bool :=
  basename.length + filetype.length ≤ f.length &&
  isPre basename f &&
  isPre filetype.reverse f.reverse &&
  ((f.drop basename.length).take (f.length - basename.length - filetype.length)).all
    (fun c => c ≠ '/')

/-- The `SINGLE_FILE_FORMATS` setting (lines 59-60). -/
def SINGLE_FILE_FORMATS : List (List Char) :=
  [pstr "avi", pstr "mp4", pstr "mxf", pstr "mov", pstr "mpg", pstr "mpeg",
   pstr "wmv", pstr "m4v", pstr "m2v"]

/-- A source node as the script reads it: its class string, its knobs
(an association list, `lookupKnob` models the `node.knob(name)` presence
check of `get_knob_value`), and the incoming frame range reported by
`node.frameRange()` (always available on a live node). -/
structure WNode where
  cls : List Char
  knobs : List (List Char × PyVal)
  upstreamFirst : Int
  upstreamLast : Int

/-- First-match association-list lookup, modelling `node.knob(name)`
(`none` = the knob is missing, Python `None`). -/
def lookupKnob : List (List Char × PyVal) → List Char → Option PyVal
  | [], _ => none
  | (k, v) :: rest, name => if k = name then some v else lookupKnob rest name

/-- Numeric value of a digit string. -/
def digitsToNat (s : List Char) : Nat :=
  s.foldl (fun acc c => acc * 10 + (c.toNat - '0'.toNat)) 0

/-- Models Python `int(s)` on a string: digits with an optional leading
minus sign (whitespace tolerance elided), `none` = `ValueError`. -/
def pyStrToInt (s : List Char) : Option Int :=
  if s ≠ [] ∧ s.all Char.isDigit then some (digitsToNat s)
  else if isPre (pstr "-") s ∧ s.tail ≠ [] ∧ s.tail.all Char.isDigit then
    some (-(digitsToNat s.tail))
  else none

/-- Models Python `int(v)` on a knob value. -/
def pyToInt : PyVal → Except PyErr Int
  | PyVal.int n => Except.ok n
  | PyVal.str s =>
    match pyStrToInt s with
    | some n => Except.ok n
    | none => Except.error PyErr.valueError

/-- Models `int(self.get_knob_value(node, name))`: `int(None)` raises a
`TypeError` when the knob is missing. -/
def intOfKnob (node : WNode) (name : List Char) : Except PyErr Int :=
  match lookupKnob node.knobs name with
  | none => Except.error PyErr.typeError
  | some v => pyToInt v

/-- Python 2 string `<=`: lexicographic comparison by character code. -/
def strLe : List Char → List Char → Bool
  | [], _ => true
  | _ :: _, [] => false
  | a :: as, b :: bs => if a = b then strLe as bs else decide (a < b)

/-- Insert into a `strLe`-sorted list, keeping it sorted. -/
def insertSorted (x : List Char) : List (List Char) → List (List Char)
  | [] => [x]
  | y :: ys => if strLe y x then y :: insertSorted x ys else x :: y :: ys

/-- Models Python `sorted()` on a list of strings (insertion sort;
stability is immaterial since the elements carry no further data). -/
def pySorted : List (List Char) → List (List Char)
  | [] => []
  | x :: xs => insertSorted x (pySorted xs)

/-- The Python 2 comparison `v < 0` of line 173: honest on ints, and
`False` when `v` is a string (Python 2 orders numbers before strings,
so a `str` is never `< 0`). -/
def pyLtZero : FrameVal → Bool
  | FrameVal.int i => decide (i < 0)
  | FrameVal.str _ => false

/-- The per-file frame extraction of lines 167-169: `re.findall` + `[-1]`
on each glob result (IndexError when a matched file has no digits). -/
def extractFrame (f : List Char) : Except PyErr (List Char) :=
  match lastDigitRun f with
  | some fr => Except.ok fr
  | none => Except.error PyErr.indexError

/-- The digit strings of all files matching `basename + '*' + filetype`
(lines 164-169). -/
def globFrames (fs : List (List Char)) (basename filetype : List Char) :
    Except PyErr (List (List Char)) :=
  (fs.filter (globMatch basename filetype)).mapM extractFrame

/-- Models `framerange_from_read` (lines 151-155). -/
def framerange_from_read (node : WNode) : Except PyErr (Int × Int) :=
  match intOfKnob node (pstr "first") with
  | Except.error e => Except.error e
  | Except.ok f =>
    match intOfKnob node (pstr "last") with
    | Except.error e => Except.error e
    | Except.ok l => Except.ok (f, l)

/-- Models `get_framerange` (lines 157-175).  The Read branch returns
the knob metadata as ints; the glob branch sorts the extracted digit
strings lexically (Python `sorted` on strings) and returns the first
and last *strings*; `frames[0]` on an empty list is an IndexError.
The final `lastframe < 0` collapse only fires on the int path
(`pyLtZero`). -/
def get_framerange (fs : List (List Char)) (node : WNode)
    (basename filetype : List Char) : Except PyErr (FrameVal × FrameVal) :=
  let raw : Except PyErr (FrameVal × FrameVal) :=
    if node.cls = pstr "Read" then
      match framerange_from_read node with
      | Except.error e => Except.error e
      | Except.ok (f, l) => Except.ok (FrameVal.int f, FrameVal.int l)
    else
      match globFrames fs basename filetype with
      | Except.error e => Except.error e
      | Except.ok frames =>
        match pySorted frames with
        | [] => Except.error PyErr.indexError
        | x :: xs => Except.ok (FrameVal.str x, FrameVal.str ((x :: xs).getLastD []))
  match raw with
  | Except.error e => Except.error e
  | Except.ok (ff, lf) =>
    if pyLtZero lf then Except.ok (ff, ff) else Except.ok (ff, lf)

/-- Models `determine_image_type` (lines 177-185). -/
def determine_image_type (filepath basename : List Char) (padding : Nat)
    (filetype : List Char) : List Char :=
  if filetype ∈ SINGLE_FILE_FORMATS then filepath
  else basename ++ List.replicate padding '#' ++ '.' :: filetype

/-- Models `determine_relativity` (lines 187-195): when a project
directory is configured, `str.replace` substitutes *every* occurrence
of it in the path by `'.'`. -/
def determine_relativity (env : Env) (filepath : List Char) : List Char :=
  match env.projectDir with
  | none => filepath
  | some d => pyReplace filepath d (pstr ".")

/-- Models `process_filepath` (lines 197-206). -/
def process_filepath (env : Env) (filepath filetype basename : List Char)
    (padding : Nat) : List Char :=
  determine_relativity env (determine_image_type filepath basename padding filetype)

/-- Models `node_options` (lines 215-226): a dict that always carries
the three fixed keys, each mapped to the knob's value or to `none`
(Python `None`) when the source node does not expose it. -/
def node_options (node : WNode) : List (List Char × Option PyVal) :=
  [(pstr "colorspace", lookupKnob node.knobs (pstr "colorspace")),
   (pstr "premultiplied", lookupKnob node.knobs (pstr "premultiplied")),
   (pstr "raw", lookupKnob node.knobs (pstr "raw"))]

/-- The combined path of line 117-119: `abspath(join(project_dir, rel))`
with backslashes normalized. -/
def combinedPath (env : Env) (pd rel : List Char) : List Char :=
  normalizedPath env (pyJoin pd rel)

/-- The sibling glob of lines 121-125 (also 164-166): files matching
`basename + '*' + filetype`, where basename and filetype are carved out
of `path` around the digit run `fr`. -/
def siblingGlob (fs : List (List Char)) (path fr : List Char) : List (List Char) :=
  fs.filter (globMatch (takeTo path (pyRfind path fr)) (splitDotLast path))

/-- Models `combined_relative_filepath_exists` (lines 107-135), the two
call variants fused into one `Option` result: `some path` when the glob
confirms a sibling file, `none` when it does not.  `os.path.join(None,
rel)` is a TypeError; a combined path without any digit is an
IndexError at line 122. -/
def combined_relative_filepath (env : Env) (rel : List Char) :
    Except PyErr (Option (List Char)) :=
  match env.projectDir with
  | none => Except.error PyErr.typeError
  | some pd =>
    let filepath := combinedPath env pd rel
    match lastDigitRun filepath with
    | none => Except.error PyErr.indexError
    | some fr =>
      if (siblingGlob env.fs filepath fr).length > 0 then Except.ok (some filepath)
      else Except.ok none

/-- Models `filepath_from_disk` (lines 137-149): raw knob value as a
literal path, then the evaluated value, then — only when a project
directory is configured — the combined relative path confirmed by the
sibling glob; `none` when everything fails. -/
def filepath_from_disk (env : Env) (knob_value knob_eval : List Char) :
    Except PyErr (Option (List Char)) :=
  if env.fs.contains knob_value then Except.ok (some knob_value)
  else if env.fs.contains knob_eval then Except.ok (some knob_eval)
  else
    match env.projectDir with
    | none => Except.ok none
    | some _ =>
      match combined_relative_filepath env knob_eval with
      | Except.error e => Except.error e
      | Except.ok (some p) => Except.ok (some p)
      | Except.ok none => Except.ok none

/-- The per-node record `frame_data` the script builds (lines 249-254 /
273-278). -/
structure FrameData where
  filepath : List Char
  firstframe : FrameVal
  lastframe : FrameVal
  options : List (List Char × Option PyVal)
  deriving DecidableEq, Repr

/-- The not-found fallback range of lines 236-245: the node's explicit
`first`/`last` knobs when `use_limit` is present and `int`-equal to 1,
its incoming (`frameRange()`) range otherwise. -/
def fallbackRange (node : WNode) : Except PyErr (Int × Int) :=
  match lookupKnob node.knobs (pstr "use_limit") with
  | none => Except.ok (node.upstreamFirst, node.upstreamLast)
  | some v =>
    match pyToInt v with
    | Except.error e => Except.error e
    | Except.ok lv =>
      if lv = 1 then
        match intOfKnob node (pstr "first") with
        | Except.error e => Except.error e
        | Except.ok f =>
          match intOfKnob node (pstr "last") with
          | Except.error e => Except.error e
          | Except.ok l => Except.ok (f, l)
      else Except.ok (node.upstreamFirst, node.upstreamLast)

/-- Models `frame_info` (lines 228-279).  `Except.ok none` is the path
where the user declines the dialog (the Python function falls through
and returns `None`); a resolved path without a digit run is the
IndexError of line 260. -/
def frame_info (env : Env) (node : WNode) (knob_value knob_eval : List Char) :
    Except PyErr (Option FrameData) :=
  match filepath_from_disk env knob_value knob_eval with
  | Except.error e => Except.error e
  | Except.ok none =>
    if env.ask then
      match fallbackRange node with
      | Except.error e => Except.error e
      | Except.ok (f, l) =>
        Except.ok (some { filepath := determine_relativity env knob_eval,
                          firstframe := FrameVal.int f,
                          lastframe := FrameVal.int l,
                          options := node_options node })
    else Except.ok none
  | Except.ok (some fp0) =>
    let fp := normalizedPath env fp0
    match lastDigitRun fp with
    | none => Except.error PyErr.indexError
    | some current_frame =>
      let basename := takeTo fp (pyRfind fp current_frame)
      let filetype := splitDotLast fp
      match get_framerange env.fs node basename filetype with
      | Except.error e => Except.error e
      | Except.ok (ff, lf) =>
        Except.ok (some { filepath := process_filepath env fp filetype basename
                                        current_frame.length,
                          firstframe := ff,
                          lastframe := lf,
                          options := node_options node })

/-- One knob write performed on the created Read node: the user-text
setter of line 322 or a plain `setValue`. -/
inductive KnobOp
  | fromUserText (name : List Char) (text : List Char)
  | setVal (name : List Char) (v : PyVal)
  deriving DecidableEq, Repr

/-- The knob a write targets. -/
def KnobOp.key : KnobOp → List Char
  | KnobOp.fromUserText n _ => n
  | KnobOp.setVal n _ => n

/-- The created Read node: the knobs it exposes and the log of writes
performed on it (in order). -/
structure RNode where
  knobNames : List (List Char)
  sets : List KnobOp
  deriving DecidableEq, Repr

/-- `r.knob(name).setValue(v)`: an AttributeError (`None.setValue`) when
the Read node has no such knob. -/
def RNode.setValue (r : RNode) (name : List Char) (v : PyVal) :
    Except PyErr RNode :=
  if name ∈ r.knobNames then
    Except.ok { r with sets := r.sets ++ [KnobOp.setVal name v] }
  else Except.error PyErr.attributeError

/-- `r.knob(name).fromUserText(text)`, same missing-knob behaviour. -/
def RNode.fromUserText (r : RNode) (name : List Char) (text : List Char) :
    Except PyErr RNode :=
  if name ∈ r.knobNames then
    Except.ok { r with sets := r.sets ++ [KnobOp.fromUserText name text] }
  else Except.error PyErr.attributeError

/-- First-match lookup in the options dict (`data[...]['node_options']
[key]`; `none` = Python `KeyError`). -/
def lookupAssoc : List (List Char × Option PyVal) → List Char → Option (Option PyVal)
  | [], _ => none
  | (k, v) :: rest, name => if k = name then some v else lookupAssoc rest name

/-- The `try: int(value) except ValueError: str(value)` conversion of
lines 290-293. -/
def pyConvert (v : PyVal) : PyVal :=
  match v with
  | PyVal.int n => PyVal.int n
  | PyVal.str s =>
    match pyStrToInt s with
    | some n => PyVal.int n
    | none => PyVal.str s

/-- Models `set_knob_from_data` with `is_option=True` (lines 281-295):
gate on the *source* node exposing the knob, fetch the collected value,
convert, and set it on the Read node — whose own exposure of the knob is
never checked first (`r.knob(key).setValue` is an AttributeError when
missing). -/
def set_knob_from_data (src : WNode) (opts : List (List Char × Option PyVal))
    (r : RNode) (name : List Char) : Except PyErr RNode :=
  if (lookupKnob src.knobs name).isSome then
    match lookupAssoc opts name with
    | none => Except.error PyErr.keyError
    | some none => Except.error PyErr.typeError
    | some (some v) => RNode.setValue r name (pyConvert v)
  else Except.ok r

/-- Models `int(data[...]['firstframe'])` (lines 306-307): the stored
frame endpoint, int-converted (the glob path stores digit strings). -/
def frameValToInt : FrameVal → Except PyErr Int
  | FrameVal.int n => Except.ok n
  | FrameVal.str s =>
    match pyStrToInt s with
    | some n => Except.ok n
    | none => Except.error PyErr.valueError

/-- The option re-application loop of lines 331-334: one
`set_knob_from_data` call per collected option key, in the fixed
colorspace / premultiplied / raw order. -/
def apply_node_options (src : WNode) (opts : List (List Char × Option PyVal))
    (r : RNode) : Except PyErr RNode :=
  match set_knob_from_data src opts r (pstr "colorspace") with
  | Except.error e => Except.error e
  | Except.ok r6 =>
    match set_knob_from_data src opts r6 (pstr "premultiplied") with
    | Except.error e => Except.error e
    | Except.ok r7 => set_knob_from_data src opts r7 (pstr "raw")

/-- Models the per-node body of `create_read_nodes` (lines 304-334),
node placement elided: compute the filetype of the processed path,
int-convert the frame endpoints, write either the single user-text path
(movie) or the path plus the four frame knobs (sequence), then re-apply
the three collected options. -/
def create_read_node (src : WNode) (fd : FrameData) (r0 : RNode) :
    Except PyErr RNode :=
  let filetype := splitDotLast fd.filepath
  match frameValToInt fd.firstframe with
  | Except.error e => Except.error e
  | Except.ok firstframe =>
    match frameValToInt fd.lastframe with
    | Except.error e => Except.error e
    | Except.ok lastframe =>
      let base : Except PyErr RNode :=
        if filetype ∈ SINGLE_FILE_FORMATS then
          RNode.fromUserText r0 (pstr "file") fd.filepath
        else
          match RNode.setValue r0 (pstr "file") (PyVal.str fd.filepath) with
          | Except.error e => Except.error e
          | Except.ok r1 =>
            match RNode.setValue r1 (pstr "first") (PyVal.int firstframe) with
            | Except.error e => Except.error e
            | Except.ok r2 =>
              match RNode.setValue r2 (pstr "last") (PyVal.int lastframe) with
              | Except.error e => Except.error e
              | Except.ok r3 =>
                match RNode.setValue r3 (pstr "origfirst") (PyVal.int firstframe) with
                | Except.error e => Except.error e
                | Except.ok r4 =>
                  RNode.setValue r4 (pstr "origlast") (PyVal.int lastframe)
      match base with
      | Except.error e => Except.error e
      | Except.ok r5 => apply_node_options src fd.options r5

/-- Does the string end in a non-digit (or is empty)?  Hypothesis form
for the round-trip theorem. -/
def endsNonDigit (b : List Char) : Bool :=
  match b.reverse.head? with
  | none => true
  | some c => !c.isDigit

theorem isPre_append_self (a r : List Char) : isPre a (a ++ r) = true := by
  induction a with
  | nil => rfl
  | cons c cs ih => simp [isPre, ih]

theorem isPre_iff_exists {a b : List Char} : isPre a b = true ↔ ∃ r, b = a ++ r := by
  constructor
  · intro h
    induction a generalizing b with
    | nil => exact ⟨b, rfl⟩
    | cons c cs ih =>
      cases b with
      | nil => simp [isPre] at h
      | cons x xs =>
        simp only [isPre, Bool.and_eq_true, decide_eq_true_eq] at h
        obtain ⟨rfl, h2⟩ := h
        obtain ⟨r, rfl⟩ := ih h2
        exact ⟨r, rfl⟩
  · rintro ⟨r, rfl⟩
    exact isPre_append_self a r

theorem take_of_isPre {a b : List Char} (h : isPre a b = true) :
    b.take a.length = a := by
  obtain ⟨r, rfl⟩ := isPre_iff_exists.mp h
  exact List.take_left a r

theorem strLe_refl (a : List Char) : strLe a a = true := by
  induction a with
  | nil => rfl
  | cons c cs ih => simp [strLe, ih]

theorem strLe_total (a b : List Char) : strLe a b = true ∨ strLe b a = true := by
  induction a generalizing b with
  | nil => left; rfl
  | cons c cs ih =>
    cases b with
    | nil => right; rfl
    | cons d ds =>
      by_cases hcd : c = d
      · subst hcd
        simpa [strLe] using ih ds
      · simp only [strLe, if_neg hcd, if_neg (Ne.symm hcd), decide_eq_true_eq]
        exact lt_or_gt_of_ne hcd

theorem strLe_trans : ∀ {a b c : List Char},
    strLe a b = true → strLe b c = true → strLe a c = true := by
  intro a
  induction a with
  | nil => intro b c _ _; rfl
  | cons x xs ih =>
    intro b c hab hbc
    cases b with
    | nil => simp [strLe] at hab
    | cons y ys =>
      cases c with
      | nil => simp [strLe] at hbc
      | cons z zs =>
        by_cases hxy : x = y
        · subst hxy
          by_cases hyz : x = z
          · subst hyz
            simp only [strLe, if_pos rfl] at hab hbc ⊢
            exact ih hab hbc
          · simp only [strLe, if_pos rfl] at hab
            simpa [strLe, hyz] using hbc
        · simp only [strLe, if_neg hxy, decide_eq_true_eq] at hab
          by_cases hyz : y = z
          · subst hyz
            simp [strLe, hxy, hab]
          · simp only [strLe, if_neg hyz, decide_eq_true_eq] at hbc
            have hlt : x < z := lt_trans hab hbc
            simp [strLe, ne_of_lt hlt, hlt]

theorem mem_insertSorted {x y : List Char} {l : List (List Char)} :
    y ∈ insertSorted x l ↔ y = x ∨ y ∈ l := by
  induction l with
  | nil => simp [insertSorted]
  | cons z zs ih =>
    simp only [insertSorted]
    split
    · simp only [List.mem_cons, ih]
      tauto
    · simp [List.mem_cons]

theorem pairwise_insertSorted {x : List Char} {l : List (List Char)}
    (hl : l.Pairwise (fun a b => strLe a b = true)) :
    (insertSorted x l).Pairwise (fun a b => strLe a b = true) := by
  induction l with
  | nil => simp [insertSorted]
  | cons z zs ih =>
    rw [List.pairwise_cons] at hl
    obtain ⟨hz, hzs⟩ := hl
    simp only [insertSorted]
    split
    · rename_i hzx
      rw [List.pairwise_cons]
      refine ⟨?_, ih hzs⟩
      intro y hy
      rcases mem_insertSorted.mp hy with rfl | hy'
      · exact hzx
      · exact hz y hy'
    · rename_i hzx
      rw [List.pairwise_cons]
      refine ⟨?_, by rw [List.pairwise_cons]; exact ⟨hz, hzs⟩⟩
      intro y hy
      have hxz : strLe x z = true := by
        rcases strLe_total x z with h | h
        · exact h
        · exact absurd h hzx
      rcases List.mem_cons.mp hy with rfl | hy'
      · exact hxz
      · exact strLe_trans hxz (hz y hy')

theorem pairwise_pySorted (l : List (List Char)) :
    (pySorted l).Pairwise (fun a b => strLe a b = true) := by
  induction l with
  | nil => simp [pySorted]
  | cons x xs ih => exact pairwise_insertSorted ih

theorem getLastD_mem_cons : ∀ (xs : List (List Char)) (x : List Char),
    (x :: xs).getLastD [] ∈ x :: xs := by
  intro xs
  induction xs with
  | nil => intro x; rw [List.getLastD_cons, List.getLastD_nil]; exact List.mem_singleton_self x
  | cons y ys ih =>
    intro x
    rw [List.getLastD_cons]
    have h := ih y
    rw [List.getLastD_cons] at h ⊢
    exact List.mem_cons_of_mem x h

theorem head_strLe_getLastD {x : List Char} {xs : List (List Char)}
    (hp : (x :: xs).Pairwise (fun a b => strLe a b = true)) :
    strLe x ((x :: xs).getLastD []) = true := by
  rcases List.mem_cons.mp (getLastD_mem_cons xs x) with h | h
  · rw [h]
    exact strLe_refl x
  · rw [List.pairwise_cons] at hp
    exact hp.1 _ h

theorem pyReplaceFuel_of_not_occurs {pat rep : List Char} :
    ∀ (fuel : Nat) {s : List Char}, occursB pat s = false →
    pyReplaceFuel pat rep fuel s = s := by
  intro fuel
  induction fuel with
  | zero => intro s _; rfl
  | succ n ih =>
    intro s h
    cases s with
    | nil => rfl
    | cons c rest =>
      rw [occursB, Bool.or_eq_false_iff] at h
      rw [pyReplaceFuel]
      rw [if_neg (by simp [h.1])]
      rw [ih h.2]

theorem pyReplaceFuel_of_isPre {pat rep s : List Char} (fuel : Nat)
    (hp : pat ≠ []) (h : isPre pat s = true) (hs : s ≠ []) :
    pyReplaceFuel pat rep (fuel + 1) s
      = rep ++ pyReplaceFuel pat rep fuel (s.drop pat.length) := by
  cases s with
  | nil => exact absurd rfl hs
  | cons c rest =>
    rw [pyReplaceFuel, if_pos ⟨hp, h⟩]

theorem rfindGo_eq_some {s pat : List Char} {k : Nat} :
    ∀ n, k ≤ n → isPre pat (s.drop k) = true →
    (∀ j, k < j → j ≤ n → isPre pat (s.drop j) = false) →
    rfindGo s pat n = some k := by
  intro n
  induction n with
  | zero =>
    intro hk hf _
    have hk0 : k = 0 := Nat.le_zero.mp hk
    subst hk0
    rw [List.drop_zero] at hf
    simp [rfindGo, hf]
  | succ n ih =>
    intro hk hf habove
    by_cases hkn : k = n + 1
    · subst hkn
      simp [rfindGo, hf]
    · have hk' : k ≤ n := by omega
      have hcond : isPre pat (s.drop (n + 1)) = false :=
        habove (n + 1) (by omega) (Nat.le_refl _)
      simp only [rfindGo, hcond, Bool.false_eq_true, if_false]
      exact ih hk' hf (fun j h1 h2 => habove j h1 (by omega))

theorem no_occurrence_after {b d t : List Char} (hd1 : d ≠ [])
    (hd2 : ∀ c ∈ d, c.isDigit = true) (ht : ∀ c ∈ t, c.isDigit = false) :
    ∀ j, b.length < j → isPre d ((b ++ (d ++ '.' :: t)).drop j) = false := by
  intro j hj
  by_contra hyp
  rw [Bool.not_eq_false] at hyp
  obtain ⟨m, rfl⟩ : ∃ m, j = b.length + m := ⟨j - b.length, by omega⟩
  have hm : 1 ≤ m := by omega
  rw [List.drop_append] at hyp
  by_cases hmd : m ≤ d.length
  · have hdrop : (d ++ '.' :: t).drop m = d.drop m ++ '.' :: t := by
      rw [List.drop_append_eq_append_drop, Nat.sub_eq_zero_of_le hmd, List.drop_zero]
    rw [hdrop] at hyp
    have htake := take_of_isPre hyp
    rw [List.take_append_eq_append_take] at htake
    have hlen : (d.drop m).length = d.length - m := List.length_drop m d
    have h1 : (d.drop m).take d.length = d.drop m :=
      List.take_of_length_le (by omega)
    rw [h1, hlen] at htake
    have hm' : d.length - (d.length - m) = m := by omega
    rw [hm'] at htake
    have hdot : '.' ∈ d := by
      rw [← htake]
      have : ('.' :: t).take m = '.' :: t.take (m - 1) := by
        cases m with
        | zero => omega
        | succ m' => simp
      rw [this]
      exact List.mem_append_right _ (List.mem_cons_self _ _)
    have := hd2 '.' hdot
    simp at this
  · have hdrop : (d ++ '.' :: t).drop m = ('.' :: t).drop (m - d.length) := by
      rw [List.drop_append_eq_append_drop, List.drop_eq_nil_of_le (by omega),
        List.nil_append]
    rw [hdrop] at hyp
    obtain ⟨u, hu⟩ : ∃ u, m - d.length = u + 1 := ⟨m - d.length - 1, by omega⟩
    rw [hu, List.drop_succ_cons] at hyp
    obtain ⟨r, hr⟩ := isPre_iff_exists.mp hyp
    cases d with
    | nil => exact hd1 rfl
    | cons c cs =>
      have hc : c ∈ t.drop u := by
        rw [hr]
        exact List.mem_cons_self _ _
      have hct : c ∈ t := List.mem_of_mem_drop hc
      have h1 := hd2 c (List.mem_cons_self _ _)
      have h2 := ht c hct
      rw [h1] at h2
      simp at h2

theorem lastDigitRun_concat {b d t : List Char} (hb : endsNonDigit b = true)
    (hd1 : d ≠ []) (hd2 : ∀ c ∈ d, c.isDigit = true)
    (ht : ∀ c ∈ t, c.isDigit = false) :
    lastDigitRun (b ++ (d ++ '.' :: t)) = some d := by
  have hrev : (b ++ (d ++ '.' :: t)).reverse
      = t.reverse ++ '.' :: (d.reverse ++ b.reverse) := by
    simp
  have hdw : (t.reverse ++ '.' :: (d.reverse ++ b.reverse)).dropWhile
      (fun c => !c.isDigit) = d.reverse ++ b.reverse := by
    rw [List.dropWhile_append_of_pos
      (by intro a ha; simp [ht a (List.mem_reverse.mp ha)])]
    rw [List.dropWhile_cons]
    rw [if_pos (by simp [Char.isDigit])]
    obtain ⟨c, cs, hcc⟩ := List.exists_cons_of_ne_nil
      (fun hnil => hd1 (by simpa using congrArg List.reverse hnil) : d.reverse ≠ [])
    rw [hcc, List.cons_append, List.dropWhile_cons]
    rw [if_neg (by
      have hc : c ∈ d := List.mem_reverse.mp (hcc ▸ List.mem_cons_self c cs)
      simp [hd2 c hc])]
  have htw : (d.reverse ++ b.reverse).takeWhile (fun c => c.isDigit)
      = d.reverse := by
    rw [List.takeWhile_append_of_pos
      (by intro a ha; exact hd2 a (List.mem_reverse.mp ha))]
    have hbtw : b.reverse.takeWhile (fun c => c.isDigit) = [] := by
      cases hbr : b.reverse with
      | nil => rfl
      | cons x xs =>
        rw [List.takeWhile_cons, if_neg]
        rw [endsNonDigit, hbr] at hb
        simp only [List.head?_cons] at hb
        simp only [Bool.not_eq_true'] at hb
        simp [hb]
    rw [hbtw, List.append_nil]
  simp only [lastDigitRun, hrev, hdw, htw]
  have hne : d.reverse ++ b.reverse ≠ [] := by
    intro hnil
    rcases List.append_eq_nil.mp hnil with ⟨h1, _⟩
    exact hd1 (by simpa using congrArg List.reverse h1)
  rw [if_neg (by simpa [List.isEmpty_iff] using hne)]
  simp

theorem splitDotLast_concat {x t : List Char} (ht : ∀ c ∈ t, c ≠ '.') :
    splitDotLast (x ++ '.' :: t) = t := by
  rw [splitDotLast]
  have hrev : (x ++ '.' :: t).reverse = t.reverse ++ '.' :: x.reverse := by simp
  rw [hrev]
  rw [List.takeWhile_append_of_pos
    (by intro a ha; simpa using ht a (List.mem_reverse.mp ha))]
  rw [List.takeWhile_cons]
  simp

theorem pyRfind_concat {b d t : List Char} (hd1 : d ≠ [])
    (hd2 : ∀ c ∈ d, c.isDigit = true) (ht : ∀ c ∈ t, c.isDigit = false) :
    pyRfind (b ++ (d ++ '.' :: t)) d = (b.length : Int) := by
  rw [pyRfind]
  have hfound : isPre d ((b ++ (d ++ '.' :: t)).drop b.length) = true := by
    rw [List.drop_left]
    exact isPre_append_self d ('.' :: t)
  have hlen : b.length ≤ (b ++ (d ++ '.' :: t)).length := by
    rw [List.length_append]
    omega
  rw [rfindGo_eq_some _ hlen hfound
    (fun j h1 _ => no_occurrence_after hd1 hd2 ht j h1)]

theorem basename_concat {b d t : List Char} (hd1 : d ≠ [])
    (hd2 : ∀ c ∈ d, c.isDigit = true) (ht : ∀ c ∈ t, c.isDigit = false) :
    takeTo (b ++ (d ++ '.' :: t)) (pyRfind (b ++ (d ++ '.' :: t)) d) = b := by
  rw [pyRfind_concat hd1 hd2 ht, takeTo, if_pos (Int.ofNat_nonneg b.length)]
  rw [Int.toNat_ofNat]
  exact List.take_left b _

/-- C7: for every resolved path and sequence descriptor, the path
formatter (`determine_image_type`) returns the resolved path unchanged
when the file type is a single-file format (no placeholder introduced),
and otherwise returns the basename followed by exactly padding-many
`'#'` characters, a `'.'` and the file type (the frame-number digits,
which sat between basename and extension, are gone from the output). -/
theorem c7_path_formatter (fp b t : List Char) (p : Nat) :
    (t ∈ SINGLE_FILE_FORMATS → determine_image_type fp b p t = fp)
    ∧ (t ∉ SINGLE_FILE_FORMATS →
        determine_image_type fp b p t = b ++ List.replicate p '#' ++ '.' :: t) := by
  constructor
  · intro h
    simp [determine_image_type, h]
  · intro h
    simp [determine_image_type, h]

/-- Witness for C7 at a movie path and at a frame-sequence path. -/
theorem c7_path_formatter_witness :
    determine_image_type (pstr "/x/a.mov") (pstr "/x/a") 4 (pstr "mov")
      = pstr "/x/a.mov"
    ∧ determine_image_type (pstr "/x/a.0001.exr") (pstr "/x/a.") 4 (pstr "exr")
      = pstr "/x/a." ++ List.replicate 4 '#' ++ '.' :: pstr "exr" :=
  ⟨(c7_path_formatter (pstr "/x/a.mov") (pstr "/x/a") (pstr "mov") 4).1 (by decide),
   (c7_path_formatter (pstr "/x/a.0001.exr") (pstr "/x/a.") (pstr "exr") 4).2 (by decide)⟩

/-- C8 (counterexample): the round trip does not reproduce the
descriptor for every basename: with basename `"a1"` (ending in a
digit), padding 2 and file type `"exr"`, formatting gives `"a1##.exr"`,
substituting the two placeholders with `"23"` gives `"a123.exr"`, and
re-extraction finds the digit run `"123"` of length 3, not the original
padding 2. -/
theorem c8_roundtrip_counterexample :
    determine_image_type (pstr "w") (pstr "a1") 2 (pstr "exr") = pstr "a1##.exr"
    ∧ pyReplace (pstr "a1##.exr") (pstr "##") (pstr "23") = pstr "a123.exr"
    ∧ lastDigitRun (pstr "a123.exr") = some (pstr "123")
    ∧ (pstr "123").length ≠ 2 := by
  refine ⟨by decide, by decide, by decide, by decide⟩

/-- C8 (amended): the format-substitute-reextract round trip reproduces
basename, padding and file type provided the basename does not end in a
digit and the file type contains neither digits nor dots.  For any
`p`-digit number `d` substituted for the placeholder block, the
substituted string is `b ++ d ++ '.' ++ t`; extraction recovers the
digit run `d` (hence padding `d.length = p`), the basename `b` (the
prefix before the last occurrence of `d`) and the file type `t`. -/
theorem c8_roundtrip (fp b d t : List Char)
    (hb : endsNonDigit b = true) (hd1 : d ≠ [])
    (hd2 : ∀ c ∈ d, c.isDigit = true)
    (ht : ∀ c ∈ t, c.isDigit = false ∧ c ≠ '.')
    (hsf : t ∉ SINGLE_FILE_FORMATS) :
    determine_image_type fp b d.length t
      = b ++ List.replicate d.length '#' ++ '.' :: t
    ∧ lastDigitRun (b ++ (d ++ '.' :: t)) = some d
    ∧ takeTo (b ++ (d ++ '.' :: t)) (pyRfind (b ++ (d ++ '.' :: t)) d) = b
    ∧ splitDotLast (b ++ (d ++ '.' :: t)) = t := by
  refine ⟨?_, ?_, ?_, ?_⟩
  · simp [determine_image_type, hsf]
  · exact lastDigitRun_concat hb hd1 hd2 (fun c hc => (ht c hc).1)
  · exact basename_concat hd1 hd2 (fun c hc => (ht c hc).1)
  · have hassoc : b ++ (d ++ '.' :: t) = (b ++ d) ++ '.' :: t := by
      rw [List.append_assoc]
    rw [hassoc]
    exact splitDotLast_concat (fun c hc => (ht c hc).2)

/-- Witness for C8 at basename `"/x/a."`, frame `"0001"`, type `"exr"`. -/
theorem c8_roundtrip_witness :
    determine_image_type (pstr "w") (pstr "/x/a.") (pstr "0001").length (pstr "exr")
      = pstr "/x/a." ++ List.replicate (pstr "0001").length '#' ++ '.' :: pstr "exr"
    ∧ lastDigitRun (pstr "/x/a." ++ (pstr "0001" ++ '.' :: pstr "exr"))
      = some (pstr "0001")
    ∧ takeTo (pstr "/x/a." ++ (pstr "0001" ++ '.' :: pstr "exr"))
        (pyRfind (pstr "/x/a." ++ (pstr "0001" ++ '.' :: pstr "exr")) (pstr "0001"))
      = pstr "/x/a."
    ∧ splitDotLast (pstr "/x/a." ++ (pstr "0001" ++ '.' :: pstr "exr")) = pstr "exr" :=
  c8_roundtrip (pstr "w") (pstr "/x/a.") (pstr "0001") (pstr "exr")
    (by decide) (by decide) (by decide) (by decide) (by decide)

/-- C4 (counterexample): with project root `"/proj"` and the path
`"/data/proj/x"` — of which the root is *not* a prefix — the formatter
still rewrites the embedded occurrence and returns `"/data./x"`, not
the path unchanged. -/
theorem c4_relativity_counterexample :
    determine_relativity
      { fs := [], projectDir := some (pstr "/proj"), cwd := pstr "/", ask := false }
      (pstr "/data/proj/x") = pstr "/data./x"
    ∧ pstr "/data./x" ≠ pstr "/data/proj/x" :=
  ⟨by decide, by decide⟩

/-- C4 (amended): when the project root is unset the path is unchanged;
when it is set, *every* occurrence of the root substring is replaced by
`'.'` — in particular a path not containing the root at all is
unchanged, and a path in which the root occurs exactly once, as a
leading prefix, becomes `'.'` followed by the remainder. -/
theorem c4_relativity (env : Env) (p r : List Char) :
    (env.projectDir = none → determine_relativity env p = p)
    ∧ (env.projectDir = some r → r ≠ [] → occursB r p = false →
        determine_relativity env p = p)
    ∧ (env.projectDir = some r → r ≠ [] → isPre r p = true →
        occursB r (p.drop r.length) = false →
        determine_relativity env p = '.' :: p.drop r.length) := by
  refine ⟨?_, ?_, ?_⟩
  · intro h
    simp [determine_relativity, h]
  · intro h hr hocc
    simp only [determine_relativity, h]
    rw [pyReplace, if_neg hr]
    exact pyReplaceFuel_of_not_occurs _ hocc
  · intro h hr hpre hocc
    simp only [determine_relativity, h]
    rw [pyReplace, if_neg hr]
    have hp : p ≠ [] := by
      intro hnil
      subst hnil
      cases r with
      | nil => exact hr rfl
      | cons c cs => simp [isPre] at hpre
    obtain ⟨n, hn⟩ : ∃ n, p.length = n + 1 := by
      cases p with
      | nil => exact absurd rfl hp
      | cons c cs => exact ⟨cs.length, rfl⟩
    rw [hn, pyReplaceFuel_of_isPre n hr hpre hp,
      pyReplaceFuel_of_not_occurs n hocc]
    rfl

/-- Witness for C4: unset root; set root absent from the path; the
spec's own example `/proj` + `/proj/shots/a.0001.exr`. -/
theorem c4_relativity_witness :
    determine_relativity
      { fs := [], projectDir := none, cwd := pstr "/", ask := false }
      (pstr "/a/b") = pstr "/a/b"
    ∧ determine_relativity
      { fs := [], projectDir := some (pstr "/proj"), cwd := pstr "/", ask := false }
      (pstr "/a/b") = pstr "/a/b"
    ∧ determine_relativity
      { fs := [], projectDir := some (pstr "/proj"), cwd := pstr "/", ask := false }
      (pstr "/proj/shots/a.0001.exr")
      = '.' :: (pstr "/proj/shots/a.0001.exr").drop (pstr "/proj").length :=
  ⟨(c4_relativity _ (pstr "/a/b") (pstr "x")).1 rfl,
   (c4_relativity _ (pstr "/a/b") (pstr "/proj")).2.1 rfl (by decide) (by decide),
   (c4_relativity _ (pstr "/proj/shots/a.0001.exr") (pstr "/proj")).2.2 rfl
     (by decide) (by decide) (by decide)⟩

/-- The Read branch of `get_framerange` in closed form: the two knob
values, with a negative last collapsed to first, independent of the
filesystem snapshot (shared helper). -/
theorem get_framerange_read_char (node : WNode) (bn ft : List Char) (f l : Int)
    (hcls : node.cls = pstr "Read")
    (hf : lookupKnob node.knobs (pstr "first") = some (PyVal.int f))
    (hl : lookupKnob node.knobs (pstr "last") = some (PyVal.int l))
    (fs : List (List Char)) :
    get_framerange fs node bn ft
      = Except.ok (FrameVal.int f, FrameVal.int (if l < 0 then f else l)) := by
  by_cases hneg : l < 0
  · simp [get_framerange, hcls, framerange_from_read, intOfKnob, hf, hl,
      pyToInt, pyLtZero, hneg]
  · simp [get_framerange, hcls, framerange_from_read, intOfKnob, hf, hl,
      pyToInt, pyLtZero, hneg]

/-- C2 (counterexample): a Read-class source declaring `first=5`,
`last=-3` does not get its metadata back verbatim — the negative last
collapses to first and `(5, 5)` is returned. -/
theorem c2_read_metadata_counterexample :
    get_framerange []
      { cls := pstr "Read",
        knobs := [(pstr "first", PyVal.int 5), (pstr "last", PyVal.int (-3))],
        upstreamFirst := 1, upstreamLast := 1 }
      (pstr "b") (pstr "exr")
      = Except.ok (FrameVal.int 5, FrameVal.int 5)
    ∧ (Except.ok (FrameVal.int 5, FrameVal.int 5)
        : Except PyErr (FrameVal × FrameVal))
      ≠ Except.ok (FrameVal.int 5, FrameVal.int (-3)) :=
  ⟨by decide, by decide⟩

/-- C2 (amended): for a Read-class source with explicit first/last
metadata the resolver returns those values verbatim whenever
`last ≥ 0` (a negative last is collapsed to first), and in all cases
the result is computed without any filesystem access: it is the same
for every filesystem snapshot. -/
theorem c2_read_metadata (node : WNode) (bn ft : List Char) (f l : Int)
    (hcls : node.cls = pstr "Read")
    (hf : lookupKnob node.knobs (pstr "first") = some (PyVal.int f))
    (hl : lookupKnob node.knobs (pstr "last") = some (PyVal.int l)) :
    ∀ fs, get_framerange fs node bn ft
      = Except.ok (FrameVal.int f, FrameVal.int (if l < 0 then f else l)) :=
  fun fs => get_framerange_read_char node bn ft f l hcls hf hl fs

/-- Witness for C2: ordinary metadata `(5, 7)` is returned verbatim even
though the snapshot contains a matching sibling file the glob would see. -/
theorem c2_read_metadata_witness :
    get_framerange [pstr "/p/b.0009.exr"]
      { cls := pstr "Read",
        knobs := [(pstr "first", PyVal.int 5), (pstr "last", PyVal.int 7)],
        upstreamFirst := 1, upstreamLast := 1 }
      (pstr "/p/b.") (pstr "exr")
      = Except.ok (FrameVal.int 5, FrameVal.int (if (7 : Int) < 0 then 5 else 7)) :=
  c2_read_metadata _ (pstr "/p/b.") (pstr "exr") 5 7 rfl (by decide) (by decide)
    [pstr "/p/b.0009.exr"]

/-- C1 (counterexample): the resolver does not always return
`last ≥ first` — a Read-class source declaring `first=5`, `last=3`
gets `(5, 3)` back (3 is not negative, so no collapse fires). -/
theorem c1_range_invariant_counterexample :
    get_framerange []
      { cls := pstr "Read",
        knobs := [(pstr "first", PyVal.int 5), (pstr "last", PyVal.int 3)],
        upstreamFirst := 1, upstreamLast := 1 }
      (pstr "b") (pstr "exr")
      = Except.ok (FrameVal.int 5, FrameVal.int 3)
    ∧ (3 : Int) < 5 :=
  ⟨by decide, by decide⟩

/-- C1 (amended): `last ≥ first` holds on the Read-metadata path
whenever the metadata itself satisfies `last < 0` (collapse) or
`first ≤ last` — not unconditionally; and on the glob path the two
returned digit *strings* satisfy first ≤ last in the lexicographic
string order in which the source sorts them (not necessarily in
numeric order for mixed-width frame numbers). -/
theorem c1_range_invariant (node : WNode) (fs : List (List Char))
    (bn ft : List Char) (f l : Int) :
    (node.cls = pstr "Read" →
      lookupKnob node.knobs (pstr "first") = some (PyVal.int f) →
      lookupKnob node.knobs (pstr "last") = some (PyVal.int l) →
      (l < 0 ∨ f ≤ l) →
      ∃ a b, get_framerange fs node bn ft
          = Except.ok (FrameVal.int a, FrameVal.int b) ∧ a ≤ b)
    ∧ (node.cls ≠ pstr "Read" → ∀ p q,
        get_framerange fs node bn ft = Except.ok (p, q) →
        ∃ sa sb, p = FrameVal.str sa ∧ q = FrameVal.str sb
          ∧ strLe sa sb = true) := by
  constructor
  · intro hcls hf hl hord
    refine ⟨f, if l < 0 then f else l,
      get_framerange_read_char node bn ft f l hcls hf hl fs, ?_⟩
    by_cases hneg : l < 0
    · simp [hneg]
    · rcases hord with h | h
      · exact absurd h hneg
      · simpa [hneg] using h
  · intro hcls p q hok
    simp only [get_framerange, if_neg hcls] at hok
    cases hgf : globFrames fs bn ft with
    | error e => simp [hgf] at hok
    | ok frames =>
      simp only [hgf] at hok
      cases hps : pySorted frames with
      | nil => simp [hps] at hok
      | cons x xs =>
        simp only [hps, pyLtZero, Bool.false_eq_true, if_false,
          Except.ok.injEq, Prod.mk.injEq] at hok
        have hpair := pairwise_pySorted frames
        rw [hps] at hpair
        obtain ⟨h1, h2⟩ := hok
        exact ⟨x, (x :: xs).getLastD [], h1.symm, h2.symm,
          head_strLe_getLastD hpair⟩

/-- Witness for C1: the Read conjunct at metadata `(2, 9)` and the glob
conjunct at a two-file snapshot whose sorted digit strings are
`"0001" ≤ "0002"`. -/
theorem c1_range_invariant_witness :
    (∃ a b, get_framerange []
        { cls := pstr "Read",
          knobs := [(pstr "first", PyVal.int 2), (pstr "last", PyVal.int 9)],
          upstreamFirst := 1, upstreamLast := 1 }
        (pstr "b") (pstr "exr")
        = Except.ok (FrameVal.int a, FrameVal.int b) ∧ a ≤ b)
    ∧ (∃ sa sb, (FrameVal.str (pstr "0001") : FrameVal) = FrameVal.str sa
        ∧ (FrameVal.str (pstr "0002") : FrameVal) = FrameVal.str sb
        ∧ strLe sa sb = true) :=
  ⟨(c1_range_invariant _ [] (pstr "b") (pstr "exr") 2 9).1 rfl (by decide)
      (by decide) (Or.inr (by decide)),
   (c1_range_invariant
      { cls := pstr "Write", knobs := [], upstreamFirst := 1, upstreamLast := 1 }
      [pstr "/p/a.0001.exr", pstr "/p/a.0002.exr"] (pstr "/p/a.") (pstr "exr")
      0 0).2 (by decide) (FrameVal.str (pstr "0001")) (FrameVal.str (pstr "0002"))
      (by decide)⟩

/-- C3: when the path resolves to NotFound and the user confirms the
dialog, the produced frame range is the node's own explicit
first/last knob values when the limit-to-range attribute is present
with value 1, and the upstream incoming range when the attribute is
absent or carries a value other than 1. -/
theorem c3_fallback_range (env : Env) (node : WNode) (kv ke : List Char)
    (f l : Int)
    (hnf : filepath_from_disk env kv ke = Except.ok none)
    (hask : env.ask = true) :
    (lookupKnob node.knobs (pstr "use_limit") = some (PyVal.int 1) →
      lookupKnob node.knobs (pstr "first") = some (PyVal.int f) →
      lookupKnob node.knobs (pstr "last") = some (PyVal.int l) →
      ∃ fd, frame_info env node kv ke = Except.ok (some fd)
        ∧ fd.firstframe = FrameVal.int f ∧ fd.lastframe = FrameVal.int l)
    ∧ (lookupKnob node.knobs (pstr "use_limit") = none →
      ∃ fd, frame_info env node kv ke = Except.ok (some fd)
        ∧ fd.firstframe = FrameVal.int node.upstreamFirst
        ∧ fd.lastframe = FrameVal.int node.upstreamLast)
    ∧ (∀ v, lookupKnob node.knobs (pstr "use_limit") = some (PyVal.int v) →
      v ≠ 1 →
      ∃ fd, frame_info env node kv ke = Except.ok (some fd)
        ∧ fd.firstframe = FrameVal.int node.upstreamFirst
        ∧ fd.lastframe = FrameVal.int node.upstreamLast) := by
  refine ⟨?_, ?_, ?_⟩
  · intro hul hf hl
    refine ⟨{ filepath := determine_relativity env ke,
              firstframe := FrameVal.int f, lastframe := FrameVal.int l,
              options := node_options node }, ?_, rfl, rfl⟩
    simp [frame_info, hnf, hask, fallbackRange, hul, pyToInt, intOfKnob, hf, hl]
  · intro hul
    refine ⟨{ filepath := determine_relativity env ke,
              firstframe := FrameVal.int node.upstreamFirst,
              lastframe := FrameVal.int node.upstreamLast,
              options := node_options node }, ?_, rfl, rfl⟩
    simp [frame_info, hnf, hask, fallbackRange, hul]
  · intro v hul hv
    refine ⟨{ filepath := determine_relativity env ke,
              firstframe := FrameVal.int node.upstreamFirst,
              lastframe := FrameVal.int node.upstreamLast,
              options := node_options node }, ?_, rfl, rfl⟩
    simp [frame_info, hnf, hask, fallbackRange, hul, pyToInt, hv]

/-- Witness for C3 at an empty snapshot (no project directory, so the
resolver yields NotFound), `ask = true`: a node with `use_limit = 1`
and explicit range `(10, 20)`, a node without the `use_limit` knob, and
a node with `use_limit = 0`. -/
theorem c3_fallback_range_witness :
    (∃ fd, frame_info
        { fs := [], projectDir := none, cwd := pstr "/", ask := true }
        { cls := pstr "Write",
          knobs := [(pstr "use_limit", PyVal.int 1), (pstr "first", PyVal.int 10),
                    (pstr "last", PyVal.int 20)],
          upstreamFirst := 100, upstreamLast := 200 }
        (pstr "x") (pstr "y") = Except.ok (some fd)
      ∧ fd.firstframe = FrameVal.int 10 ∧ fd.lastframe = FrameVal.int 20)
    ∧ (∃ fd, frame_info
        { fs := [], projectDir := none, cwd := pstr "/", ask := true }
        { cls := pstr "Write", knobs := [], upstreamFirst := 100, upstreamLast := 200 }
        (pstr "x") (pstr "y") = Except.ok (some fd)
      ∧ fd.firstframe = FrameVal.int 100 ∧ fd.lastframe = FrameVal.int 200)
    ∧ (∃ fd, frame_info
        { fs := [], projectDir := none, cwd := pstr "/", ask := true }
        { cls := pstr "Write",
          knobs := [(pstr "use_limit", PyVal.int 0), (pstr "first", PyVal.int 10),
                    (pstr "last", PyVal.int 20)],
          upstreamFirst := 100, upstreamLast := 200 }
        (pstr "x") (pstr "y") = Except.ok (some fd)
      ∧ fd.firstframe = FrameVal.int 100 ∧ fd.lastframe = FrameVal.int 200) :=
  ⟨(c3_fallback_range _ _ (pstr "x") (pstr "y") 10 20 (by decide) rfl).1
      (by decide) (by decide) (by decide),
   (c3_fallback_range _ _ (pstr "x") (pstr "y") 0 0 (by decide) rfl).2.1
      (by decide),
   (c3_fallback_range _ _ (pstr "x") (pstr "y") 0 0 (by decide) rfl).2.2 0
      (by decide) (by decide)⟩

/-- C9: a resolved path (after abspath/backslash normalization) that
contains no digit run makes `frame_info` abort that item with the
IndexError of line 260 — no defaulted descriptor or frame range is
produced. -/
theorem c9_no_digit_error (env : Env) (node : WNode) (kv ke p : List Char)
    (hfp : filepath_from_disk env kv ke = Except.ok (some p))
    (hnd : lastDigitRun (normalizedPath env p) = none) :
    frame_info env node kv ke = Except.error PyErr.indexError := by
  simp [frame_info, hfp, hnd]

/-- Witness for C9: an existing movie path without any digit. -/
theorem c9_no_digit_error_witness :
    frame_info { fs := [pstr "/a/b.mov"], projectDir := none, cwd := pstr "/",
                 ask := false }
      { cls := pstr "Write", knobs := [], upstreamFirst := 1, upstreamLast := 1 }
      (pstr "/a/b.mov") (pstr "/a/b.mov") = Except.error PyErr.indexError :=
  c9_no_digit_error _ _ (pstr "/a/b.mov") (pstr "/a/b.mov") (pstr "/a/b.mov")
    (by decide) (by decide)

/-- C6 (counterexample): when the first two attempts fail, a project
root is set, and the combined path contains no digit at all, the
resolver does not return NotFound — it raises the IndexError of
line 122 instead. -/
theorem c6_resolver_counterexample :
    filepath_from_disk
      { fs := [], projectDir := some (pstr "/proj"), cwd := pstr "/", ask := false }
      (pstr "x") (pstr "y.mov") = Except.error PyErr.indexError
    ∧ (Except.error PyErr.indexError : Except PyErr (Option (List Char)))
      ≠ Except.ok none :=
  ⟨by decide, by decide⟩

/-- C6 (amended): the resolver tries exactly three attempts in order,
first success winning — (a) the raw value as an existing path, (b) the
evaluated value as an existing path, (c) the evaluated value joined to
the project root and confirmed by the sibling-file wildcard glob — and
returns NotFound when the project root is unset (attempt (c) is then
skipped) or when all attempts fail, provided the combined path of
attempt (c) contains a digit run (without one, attempt (c) raises an
IndexError instead of returning NotFound). -/
theorem c6_resolver_order (env : Env) (kv ke d : List Char) :
    (env.fs.contains kv = true → filepath_from_disk env kv ke = Except.ok (some kv))
    ∧ (env.fs.contains kv = false → env.fs.contains ke = true →
        filepath_from_disk env kv ke = Except.ok (some ke))
    ∧ (env.fs.contains kv = false → env.fs.contains ke = false →
        env.projectDir = none → filepath_from_disk env kv ke = Except.ok none)
    ∧ (env.fs.contains kv = false → env.fs.contains ke = false →
        env.projectDir = some d → ∀ fr,
        lastDigitRun (combinedPath env d ke) = some fr →
        ((siblingGlob env.fs (combinedPath env d ke) fr).length > 0 →
            filepath_from_disk env kv ke
              = Except.ok (some (combinedPath env d ke)))
        ∧ ((siblingGlob env.fs (combinedPath env d ke) fr).length = 0 →
            filepath_from_disk env kv ke = Except.ok none)) := by
  refine ⟨?_, ?_, ?_, ?_⟩
  · intro h1
    have h1' : kv ∈ env.fs := by simpa using h1
    simp [filepath_from_disk, h1']
  · intro h1 h2
    have h1' : kv ∉ env.fs := by simpa using h1
    have h2' : ke ∈ env.fs := by simpa using h2
    simp [filepath_from_disk, h1', h2']
  · intro h1 h2 h3
    have h1' : kv ∉ env.fs := by simpa using h1
    have h2' : ke ∉ env.fs := by simpa using h2
    simp [filepath_from_disk, h1', h2', h3]
  · intro h1 h2 h3 fr hfr
    have h1' : kv ∉ env.fs := by simpa using h1
    have h2' : ke ∉ env.fs := by simpa using h2
    constructor
    · intro hg
      simp [filepath_from_disk, h1', h2', h3, combined_relative_filepath, hfr, hg]
    · intro hg
      simp [filepath_from_disk, h1', h2', h3, combined_relative_filepath, hfr, hg]

/-- Witness for C6: all four branches at concrete snapshots — raw hit,
evaluated hit, unset root, and (with root set) both a confirmed and an
unconfirmed sibling glob. -/
theorem c6_resolver_order_witness :
    filepath_from_disk
      { fs := [pstr "p1"], projectDir := none, cwd := pstr "/", ask := false }
      (pstr "p1") (pstr "q") = Except.ok (some (pstr "p1"))
    ∧ filepath_from_disk
      { fs := [pstr "q2"], projectDir := none, cwd := pstr "/", ask := false }
      (pstr "p") (pstr "q2") = Except.ok (some (pstr "q2"))
    ∧ filepath_from_disk
      { fs := [], projectDir := none, cwd := pstr "/", ask := false }
      (pstr "p") (pstr "q") = Except.ok none
    ∧ filepath_from_disk
      { fs := [pstr "/proj/a.0002.exr"], projectDir := some (pstr "/proj"),
        cwd := pstr "/", ask := false }
      (pstr "x") (pstr "a.0001.exr")
      = Except.ok (some (combinedPath
          { fs := [pstr "/proj/a.0002.exr"], projectDir := some (pstr "/proj"),
            cwd := pstr "/", ask := false } (pstr "/proj") (pstr "a.0001.exr")))
    ∧ filepath_from_disk
      { fs := [], projectDir := some (pstr "/proj"), cwd := pstr "/", ask := false }
      (pstr "x") (pstr "a.0001.exr") = Except.ok none :=
  ⟨(c6_resolver_order _ (pstr "p1") (pstr "q") (pstr "z")).1 (by decide),
   (c6_resolver_order _ (pstr "p") (pstr "q2") (pstr "z")).2.1 (by decide) (by decide),
   (c6_resolver_order _ (pstr "p") (pstr "q") (pstr "z")).2.2.1 (by decide)
     (by decide) rfl,
   ((c6_resolver_order _ (pstr "x") (pstr "a.0001.exr") (pstr "/proj")).2.2.2
     (by decide) (by decide) rfl (pstr "0001") (by decide)).1 (by decide),
   ((c6_resolver_order _ (pstr "x") (pstr "a.0001.exr") (pstr "/proj")).2.2.2
     (by decide) (by decide) rfl (pstr "0001") (by decide)).2 (by decide)⟩

/-- C5 (counterexample): the collected options dict always carries all
three names — here `colorspace` and `premultiplied` appear mapped to the
absence marker although the source does not expose them — and applying
a source-exposed option (`raw`) onto a destination that lacks the knob
raises an AttributeError instead of being silently skipped. -/
theorem c5_options_counterexample :
    node_options
      { cls := pstr "Write", knobs := [(pstr "raw", PyVal.int 1)],
        upstreamFirst := 1, upstreamLast := 1 }
      = [(pstr "colorspace", none), (pstr "premultiplied", none),
         (pstr "raw", some (PyVal.int 1))]
    ∧ set_knob_from_data
        { cls := pstr "Write", knobs := [(pstr "raw", PyVal.int 1)],
          upstreamFirst := 1, upstreamLast := 1 }
        (node_options
          { cls := pstr "Write", knobs := [(pstr "raw", PyVal.int 1)],
            upstreamFirst := 1, upstreamLast := 1 })
        { knobNames := [pstr "file"], sets := [] } (pstr "raw")
      = Except.error PyErr.attributeError :=
  ⟨by decide, by decide⟩

/-- C5 (amended): the collected mapping binds each of the three fixed
names to the source's stored value when exposed and to the absence
marker otherwise.  When applied, a name is skipped silently iff the
*source* does not expose it; when the source exposes it, the converted
value is written to the destination whose own exposure is not checked
first — a destination lacking the attribute yields an AttributeError,
not a silent skip. -/
theorem c5_option_copy (src : WNode) (r : RNode) (name : List Char) (v : PyVal) :
    (lookupAssoc (node_options src) (pstr "colorspace")
        = some (lookupKnob src.knobs (pstr "colorspace"))
      ∧ lookupAssoc (node_options src) (pstr "premultiplied")
        = some (lookupKnob src.knobs (pstr "premultiplied"))
      ∧ lookupAssoc (node_options src) (pstr "raw")
        = some (lookupKnob src.knobs (pstr "raw")))
    ∧ (lookupKnob src.knobs name = none →
        set_knob_from_data src (node_options src) r name = Except.ok r)
    ∧ ((name = pstr "colorspace" ∨ name = pstr "premultiplied"
          ∨ name = pstr "raw") →
        lookupKnob src.knobs name = some v →
        (name ∈ r.knobNames →
          set_knob_from_data src (node_options src) r name
            = Except.ok { r with sets := r.sets
                ++ [KnobOp.setVal name (pyConvert v)] })
        ∧ (name ∉ r.knobNames →
          set_knob_from_data src (node_options src) r name
            = Except.error PyErr.attributeError)) := by
  refine ⟨⟨rfl, rfl, rfl⟩, ?_, ?_⟩
  · intro hnone
    simp [set_knob_from_data, hnone]
  · intro hname hv
    have hassoc : lookupAssoc (node_options src) name
        = some (lookupKnob src.knobs name) := by
      rcases hname with rfl | rfl | rfl <;> rfl
    constructor
    · intro hmem
      simp [set_knob_from_data, hv, hassoc, RNode.setValue, hmem]
    · intro hmem
      simp [set_knob_from_data, hv, hassoc, RNode.setValue, hmem]

/-- Witness for C5: a source exposing only `raw` with value `1`;
skipping on a missing source knob, setting on an exposing destination,
erroring on a non-exposing destination. -/
theorem c5_option_copy_witness :
    (lookupAssoc (node_options
        { cls := pstr "Write", knobs := [(pstr "raw", PyVal.int 1)],
          upstreamFirst := 1, upstreamLast := 1 }) (pstr "colorspace")
      = some (lookupKnob [(pstr "raw", PyVal.int 1)] (pstr "colorspace")))
    ∧ set_knob_from_data
        { cls := pstr "Write", knobs := [(pstr "raw", PyVal.int 1)],
          upstreamFirst := 1, upstreamLast := 1 }
        (node_options
          { cls := pstr "Write", knobs := [(pstr "raw", PyVal.int 1)],
            upstreamFirst := 1, upstreamLast := 1 })
        { knobNames := [pstr "raw"], sets := [] } (pstr "colorspace")
      = Except.ok { knobNames := [pstr "raw"], sets := [] }
    ∧ set_knob_from_data
        { cls := pstr "Write", knobs := [(pstr "raw", PyVal.int 1)],
          upstreamFirst := 1, upstreamLast := 1 }
        (node_options
          { cls := pstr "Write", knobs := [(pstr "raw", PyVal.int 1)],
            upstreamFirst := 1, upstreamLast := 1 })
        { knobNames := [pstr "raw"], sets := [] } (pstr "raw")
      = Except.ok { knobNames := [pstr "raw"],
                    sets := [KnobOp.setVal (pstr "raw")
                              (pyConvert (PyVal.int 1))] }
    ∧ set_knob_from_data
        { cls := pstr "Write", knobs := [(pstr "raw", PyVal.int 1)],
          upstreamFirst := 1, upstreamLast := 1 }
        (node_options
          { cls := pstr "Write", knobs := [(pstr "raw", PyVal.int 1)],
            upstreamFirst := 1, upstreamLast := 1 })
        { knobNames := [pstr "file"], sets := [] } (pstr "raw")
      = Except.error PyErr.attributeError :=
  ⟨(c5_option_copy
      { cls := pstr "Write", knobs := [(pstr "raw", PyVal.int 1)],
        upstreamFirst := 1, upstreamLast := 1 }
      { knobNames := [pstr "raw"], sets := [] } (pstr "x") (PyVal.int 0)).1.1,
   (c5_option_copy
      { cls := pstr "Write", knobs := [(pstr "raw", PyVal.int 1)],
        upstreamFirst := 1, upstreamLast := 1 }
      { knobNames := [pstr "raw"], sets := [] } (pstr "colorspace")
      (PyVal.int 0)).2.1 (by decide),
   ((c5_option_copy
      { cls := pstr "Write", knobs := [(pstr "raw", PyVal.int 1)],
        upstreamFirst := 1, upstreamLast := 1 }
      { knobNames := [pstr "raw"], sets := [] } (pstr "raw")
      (PyVal.int 1)).2.2 (by decide) (by decide)).1 (by decide),
   ((c5_option_copy
      { cls := pstr "Write", knobs := [(pstr "raw", PyVal.int 1)],
        upstreamFirst := 1, upstreamLast := 1 }
      { knobNames := [pstr "file"], sets := [] } (pstr "raw")
      (PyVal.int 1)).2.2 (by decide) (by decide)).2 (by decide)⟩

/-- The five path/frame-range knobs written directly by
`create_read_nodes` (lines 320-329). -/
def rangePathKnobs : List (List Char) :=
  [pstr "file", pstr "first", pstr "last", pstr "origfirst", pstr "origlast"]

theorem setValue_ok_sets {r r' : RNode} {name : List Char} {v : PyVal}
    (h : RNode.setValue r name v = Except.ok r') :
    r'.sets = r.sets ++ [KnobOp.setVal name v] := by
  simp only [RNode.setValue] at h
  split at h
  · simp only [Except.ok.injEq] at h
    rw [← h]
  · simp at h

theorem fromUserText_ok_sets {r r' : RNode} {name text : List Char}
    (h : RNode.fromUserText r name text = Except.ok r') :
    r'.sets = r.sets ++ [KnobOp.fromUserText name text] := by
  simp only [RNode.fromUserText] at h
  split at h
  · simp only [Except.ok.injEq] at h
    rw [← h]
  · simp at h

theorem set_knob_sets_shape {src : WNode} {opts : List (List Char × Option PyVal)}
    {r r' : RNode} {name : List Char}
    (h : set_knob_from_data src opts r name = Except.ok r') :
    r'.sets = r.sets ∨ ∃ v, r'.sets = r.sets ++ [KnobOp.setVal name v] := by
  simp only [set_knob_from_data] at h
  by_cases hs : (lookupKnob src.knobs name).isSome
  · rw [if_pos hs] at h
    cases hla : lookupAssoc opts name with
    | none => rw [hla] at h; simp at h
    | some vo =>
      rw [hla] at h
      cases vo with
      | none => simp at h
      | some v => exact Or.inr ⟨pyConvert v, setValue_ok_sets h⟩
  · rw [if_neg hs] at h
    simp only [Except.ok.injEq] at h
    exact Or.inl (by rw [← h])

theorem set_knob_sets_extra {src : WNode} {opts : List (List Char × Option PyVal)}
    {r r' : RNode} {name : List Char}
    (hname : rangePathKnobs.contains name = false)
    (h : set_knob_from_data src opts r name = Except.ok r') :
    ∃ extra, r'.sets = r.sets ++ extra
      ∧ extra.filter (fun op => rangePathKnobs.contains op.key) = [] := by
  rcases set_knob_sets_shape h with h1 | ⟨v, h1⟩
  · exact ⟨[], by simp [h1], rfl⟩
  · refine ⟨[KnobOp.setVal name v], h1, ?_⟩
    have hname' : name ∉ rangePathKnobs := by simpa using hname
    simp [List.filter, KnobOp.key, hname']

theorem apply_node_options_sets {src : WNode}
    {opts : List (List Char × Option PyVal)} {r rr : RNode}
    (h : apply_node_options src opts r = Except.ok rr) :
    ∃ extra, rr.sets = r.sets ++ extra
      ∧ extra.filter (fun op => rangePathKnobs.contains op.key) = [] := by
  simp only [apply_node_options] at h
  cases h1 : set_knob_from_data src opts r (pstr "colorspace") with
  | error e => rw [h1] at h; simp at h
  | ok r6 =>
    rw [h1] at h
    dsimp only at h
    cases h2 : set_knob_from_data src opts r6 (pstr "premultiplied") with
    | error e => rw [h2] at h; simp at h
    | ok r7 =>
      rw [h2] at h
      dsimp only at h
      obtain ⟨e1, he1, hf1⟩ := set_knob_sets_extra (by decide) h1
      obtain ⟨e2, he2, hf2⟩ := set_knob_sets_extra (by decide) h2
      obtain ⟨e3, he3, hf3⟩ := set_knob_sets_extra (by decide) h
      refine ⟨e1 ++ e2 ++ e3, ?_, ?_⟩
      · rw [he3, he2, he1]
        simp [List.append_assoc]
      · rw [List.filter_append, List.filter_append, hf1, hf2, hf3]
        rfl

/-- C10: on the created Read node, restricted to the file/frame-range
knobs: a single-file (movie) result writes only the path, through the
user-text setter, and never touches first/last/origfirst/origlast; a
sequence result writes the path via a plain set and sets all four
frame knobs to the int-converted computed range. -/
theorem c10_created_node_writes (src : WNode) (fd : FrameData) (r0 rr : RNode)
    (h0 : r0.sets = [])
    (hok : create_read_node src fd r0 = Except.ok rr) :
    (splitDotLast fd.filepath ∈ SINGLE_FILE_FORMATS →
      rr.sets.filter (fun op => rangePathKnobs.contains op.key)
        = [KnobOp.fromUserText (pstr "file") fd.filepath])
    ∧ (splitDotLast fd.filepath ∉ SINGLE_FILE_FORMATS →
      ∃ ff lf, frameValToInt fd.firstframe = Except.ok ff
        ∧ frameValToInt fd.lastframe = Except.ok lf
        ∧ rr.sets.filter (fun op => rangePathKnobs.contains op.key)
          = [KnobOp.setVal (pstr "file") (PyVal.str fd.filepath),
             KnobOp.setVal (pstr "first") (PyVal.int ff),
             KnobOp.setVal (pstr "last") (PyVal.int lf),
             KnobOp.setVal (pstr "origfirst") (PyVal.int ff),
             KnobOp.setVal (pstr "origlast") (PyVal.int lf)]) := by
  have hfile : (pstr "file") ∈ rangePathKnobs := by decide
  have hfirst : (pstr "first") ∈ rangePathKnobs := by decide
  have hlast : (pstr "last") ∈ rangePathKnobs := by decide
  have hofirst : (pstr "origfirst") ∈ rangePathKnobs := by decide
  have holast : (pstr "origlast") ∈ rangePathKnobs := by decide
  simp only [create_read_node] at hok
  cases hff : frameValToInt fd.firstframe with
  | error e => rw [hff] at hok; simp at hok
  | ok ff =>
    rw [hff] at hok
    dsimp only at hok
    cases hlf : frameValToInt fd.lastframe with
    | error e => rw [hlf] at hok; simp at hok
    | ok lf =>
      rw [hlf] at hok
      dsimp only at hok
      by_cases hsf : splitDotLast fd.filepath ∈ SINGLE_FILE_FORMATS
      · refine ⟨fun _ => ?_, fun hc => absurd hsf hc⟩
        rw [if_pos hsf] at hok
        cases hb : RNode.fromUserText r0 (pstr "file") fd.filepath with
        | error e => rw [hb] at hok; simp at hok
        | ok r5 =>
          rw [hb] at hok
          dsimp only at hok
          obtain ⟨extra, hsets, hfil⟩ := apply_node_options_sets hok
          have h5 := fromUserText_ok_sets hb
          rw [hsets, h5, h0, List.nil_append, List.filter_append, hfil,
            List.append_nil]
          simp [List.filter, KnobOp.key, hfile]
      · refine ⟨fun hc => absurd hc hsf, fun _ => ?_⟩
        refine ⟨ff, lf, rfl, rfl, ?_⟩
        rw [if_neg hsf] at hok
        cases hb1 : RNode.setValue r0 (pstr "file") (PyVal.str fd.filepath) with
        | error e => rw [hb1] at hok; simp at hok
        | ok r1 =>
          rw [hb1] at hok
          dsimp only at hok
          cases hb2 : RNode.setValue r1 (pstr "first") (PyVal.int ff) with
          | error e => rw [hb2] at hok; simp at hok
          | ok r2 =>
            rw [hb2] at hok
            dsimp only at hok
            cases hb3 : RNode.setValue r2 (pstr "last") (PyVal.int lf) with
            | error e => rw [hb3] at hok; simp at hok
            | ok r3 =>
              rw [hb3] at hok
              dsimp only at hok
              cases hb4 : RNode.setValue r3 (pstr "origfirst") (PyVal.int ff) with
              | error e => rw [hb4] at hok; simp at hok
              | ok r4 =>
                rw [hb4] at hok
                dsimp only at hok
                cases hb5 : RNode.setValue r4 (pstr "origlast") (PyVal.int lf) with
                | error e => rw [hb5] at hok; simp at hok
                | ok r5 =>
                  rw [hb5] at hok
                  dsimp only at hok
                  obtain ⟨extra, hsets, hfil⟩ := apply_node_options_sets hok
                  have s1 := setValue_ok_sets hb1
                  have s2 := setValue_ok_sets hb2
                  have s3 := setValue_ok_sets hb3
                  have s4 := setValue_ok_sets hb4
                  have s5 := setValue_ok_sets hb5
                  rw [hsets, s5, s4, s3, s2, s1, h0, List.nil_append]
                  rw [List.filter_append, hfil, List.append_nil]
                  simp [List.filter_append, List.filter, KnobOp.key, hfile,
                    hfirst, hlast, hofirst, holast]

/-- Witness for C10: a movie result writes only the user-text path; a
sequence result (digit-string range `"0001"`-`"0010"`) writes the path
and the four int-converted frame knobs. -/
theorem c10_created_node_writes_witness :
    ((create_read_node
        { cls := pstr "Write", knobs := [], upstreamFirst := 1, upstreamLast := 1 }
        { filepath := pstr "./a.mov", firstframe := FrameVal.int 1,
          lastframe := FrameVal.int 10,
          options := [(pstr "colorspace", none), (pstr "premultiplied", none),
                      (pstr "raw", none)] }
        { knobNames := [pstr "file", pstr "first", pstr "last",
                        pstr "origfirst", pstr "origlast"], sets := [] }
      = Except.ok { knobNames := [pstr "file", pstr "first", pstr "last",
                                  pstr "origfirst", pstr "origlast"],
                    sets := [KnobOp.fromUserText (pstr "file") (pstr "./a.mov")] })
    ∧ ({ knobNames := [pstr "file", pstr "first", pstr "last",
                       pstr "origfirst", pstr "origlast"],
         sets := [KnobOp.fromUserText (pstr "file") (pstr "./a.mov")]
         : RNode }).sets.filter (fun op => rangePathKnobs.contains op.key)
        = [KnobOp.fromUserText (pstr "file") (pstr "./a.mov")])
    ∧ (∃ ff lf, frameValToInt (FrameVal.str (pstr "0001")) = Except.ok ff
        ∧ frameValToInt (FrameVal.str (pstr "0010")) = Except.ok lf
        ∧ ({ knobNames := [pstr "file", pstr "first", pstr "last",
                           pstr "origfirst", pstr "origlast"],
             sets := [KnobOp.setVal (pstr "file") (PyVal.str (pstr "./a.####.exr")),
                      KnobOp.setVal (pstr "first") (PyVal.int 1),
                      KnobOp.setVal (pstr "last") (PyVal.int 10),
                      KnobOp.setVal (pstr "origfirst") (PyVal.int 1),
                      KnobOp.setVal (pstr "origlast") (PyVal.int 10)]
             : RNode }).sets.filter (fun op => rangePathKnobs.contains op.key)
          = [KnobOp.setVal (pstr "file") (PyVal.str (pstr "./a.####.exr")),
             KnobOp.setVal (pstr "first") (PyVal.int ff),
             KnobOp.setVal (pstr "last") (PyVal.int lf),
             KnobOp.setVal (pstr "origfirst") (PyVal.int ff),
             KnobOp.setVal (pstr "origlast") (PyVal.int lf)]) :=
  ⟨⟨by decide,
   (c10_created_node_writes
      { cls := pstr "Write", knobs := [], upstreamFirst := 1, upstreamLast := 1 }
      { filepath := pstr "./a.mov", firstframe := FrameVal.int 1,
        lastframe := FrameVal.int 10,
        options := [(pstr "colorspace", none), (pstr "premultiplied", none),
                    (pstr "raw", none)] }
      { knobNames := [pstr "file", pstr "first", pstr "last",
                      pstr "origfirst", pstr "origlast"], sets := [] }
      { knobNames := [pstr "file", pstr "first", pstr "last",
                      pstr "origfirst", pstr "origlast"],
        sets := [KnobOp.fromUserText (pstr "file") (pstr "./a.mov")] }
      rfl (by decide)).1 (by decide)⟩,
   (c10_created_node_writes
      { cls := pstr "Write", knobs := [], upstreamFirst := 1, upstreamLast := 1 }
      { filepath := pstr "./a.####.exr", firstframe := FrameVal.str (pstr "0001"),
        lastframe := FrameVal.str (pstr "0010"),
        options := [(pstr "colorspace", none), (pstr "premultiplied", none),
                    (pstr "raw", none)] }
      { knobNames := [pstr "file", pstr "first", pstr "last",
                      pstr "origfirst", pstr "origlast"], sets := [] }
      { knobNames := [pstr "file", pstr "first", pstr "last",
                      pstr "origfirst", pstr "origlast"],
        sets := [KnobOp.setVal (pstr "file") (PyVal.str (pstr "./a.####.exr")),
                 KnobOp.setVal (pstr "first") (PyVal.int 1),
                 KnobOp.setVal (pstr "last") (PyVal.int 10),
                 KnobOp.setVal (pstr "origfirst") (PyVal.int 1),
                 KnobOp.setVal (pstr "origlast") (PyVal.int 10)] }
      rfl (by decide)).2 (by decide)⟩
